import Mathlib

/-!
A shallow embedding, in Lean 4, of the decision-routing pipeline of the
PlantX plant-disease detection backend (files `src/Backend/src/utils.py`,
`inference_pipeline.py`, `blip_fallback.py`, `llm_advisor.py`,
`llm_advisor_hf.py`), together with theorems settling the specification
claims about it.

Modelling conventions:
- Python floats are modelled as rationals (`ℚ`); the comparisons and
  arithmetic the pipeline performs are exact on the values involved.
- External collaborators (file system, the CNN model together with image
  preprocessing, the BLIP captioning model, OpenCV contrast enhancement,
  the HTTP transport of the advisory service, and the wall clock) are
  inputs of the embedded functions; a Python exception raised by such a
  collaborator, or by repository code, is an `Except.error` carrying the
  exception text.
- `numpy.argsort` is modelled as the stable ascending sort of the index
  range (equal values keep their index order), which is the observed and
  documented-deterministic behaviour on the vectors at issue.
- Strings are ASCII in all the data the pipeline manipulates, so
  `str.lower`/`str.title` are modelled on ASCII case only, and the decimal
  rendering of numbers inside messages is modelled by an exact rational
  formatter (CPython formats the nearest double with round-half-even; the
  difference is immaterial to every claim, none of which depends on the
  rendered digits).
-/

attribute [local semireducible] Rat.add Rat.sub Rat.mul Rat.inv Rat.ofScientific

namespace PlantX

/-! ### Python string primitives -/

/-- Python `str.lower()` restricted to ASCII case mapping. -/
def pyLower (s : String) : String :=
  String.mk (s.data.map Char.toLower)

/-- Does the second list start with the first one? -/
def listStartsWith : List Char → List Char → Bool
  | [], _ => true
  | _ :: _, [] => false
  | a :: as, b :: bs => a == b && listStartsWith as bs

/-- Python `needle in hay` on strings (contiguous substring test). -/
def listContainsSub (needle : List Char) : List Char → Bool
  | [] => needle.isEmpty
  | c :: rest => listStartsWith needle (c :: rest) || listContainsSub needle rest

/-- Python `needle in hay` for `String`s. -/
def pyContains (hay needle : String) : Bool :=
  listContainsSub needle.data hay.data

/-- Python `str.isspace` characters relevant to `str.strip()`. -/
def isPySpace (c : Char) : Bool :=
  c == ' ' || c == '\t' || c == '\n' || c == '\r' || c == '\x0b' || c == '\x0c'

/-- Python `str.strip()`: drop leading and trailing whitespace. -/
def pyStrip (s : String) : String :=
  String.mk (((s.data.dropWhile isPySpace).reverse.dropWhile isPySpace).reverse)

/-- Python `str.isalpha` restricted to ASCII letters. -/
def pyIsAlpha (c : Char) : Bool :=
  c.isAlpha

/-- One step of Python `str.title()`: the accumulator carries the output in
reverse together with the flag "previous character was a letter". -/
def pyTitleStep (acc : List Char × Bool) (c : Char) : List Char × Bool :=
  ((if acc.2 then c.toLower else c.toUpper) :: acc.1, pyIsAlpha c)

/-- Python `str.title()` on ASCII text: each letter that follows a
non-letter is uppercased, every other letter is lowercased. -/
def pyTitle (s : String) : String :=
  String.mk (s.data.foldl pyTitleStep ([], false)).1.reverse

/-- Python `s.split(sep, 1)` specialised to a single-space separator:
`some (before, after)` around the first space, `none` when there is no
space. -/
def splitOnceAtSpace : List Char → Option (List Char × List Char)
  | [] => none
  | c :: rest =>
    if c = ' ' then some ([], rest)
    else
      match splitOnceAtSpace rest with
      | none => none
      | some (a, b) => some (c :: a, b)

/-- Python `s.split("\n\n")` (the separator used by `_extract_summary`). -/
def splitNN : List Char → List (List Char)
  | [] => [[]]
  | '\n' :: '\n' :: rest => [] :: splitNN rest
  | c :: rest =>
    match splitNN rest with
    | [] => [[c]]
    | h :: t => (c :: h) :: t

/-- Python `s.rsplit(" ", 1)[0]`: everything before the last space, or the
whole text when it has no space. -/
def beforeLastSpace (l : List Char) : List Char :=
  let r := l.reverse
  let lastWord := r.takeWhile (fun c => !(c == ' '))
  if lastWord.length == r.length then l
  else (r.drop (lastWord.length + 1)).reverse

/-! ### Decimal rendering of numbers inside messages

`fixedFormat q d` renders a nonnegative rational with `d` digits after the
decimal point, rounding half up; it models CPython float formatting
(`"%.df" % x`), which rounds the nearest double half to even — the two
agree on every value rendered in this development. -/

/-- Integer part of a nonnegative rational (floor). -/
def ratFloorPos (q : ℚ) : ℕ :=
  q.num.toNat / q.den

/-- Left-pad a digit string with zeros to the given width. -/
def padZeros (s : String) (width : ℕ) : String :=
  String.mk (List.replicate (width - s.data.length) '0') ++ s

/-- Fixed-point decimal rendering of a nonnegative rational. -/
def fixedFormat (q : ℚ) (d : ℕ) : String :=
  let n := ratFloorPos (q * (10 : ℚ) ^ d + 1 / 2)
  if d = 0 then toString n
  else toString (n / 10 ^ d) ++ "." ++ padZeros (toString (n % 10 ^ d)) d

/-- Python `f"{q:.1%}"`-style percent rendering (`d` fractional digits). -/
def pctFormat (q : ℚ) (d : ℕ) : String :=
  fixedFormat (q * 100) d ++ "%"

/-- Python `str(x)` for the numbers interpolated into validation messages:
integral values render without a decimal point. -/
def pyNumRepr (q : ℚ) : String :=
  if q.den = 1 then toString q.num else fixedFormat q 1

/-! ### `utils.calculate_confidence_metrics` and friends -/

/-- The derived per-prediction confidence metrics
(`utils.calculate_confidence_metrics` output).  The Shannon-entropy field
of the Python dictionary is omitted: it needs the real logarithm, and no
claim concerns it. -/
structure ConfidenceMetrics where
  max_confidence : ℚ
  confidence_gap : ℚ
  top_k_indices : List ℕ
  top_k_confidences : List ℚ
deriving DecidableEq, Repr

/-- The total order by which `numpy.argsort` ranks indices of the
probability vector `p`: ascending by value, equal values in index order
(this is exactly what the stable ascending argsort produces). -/
def argOrder (p : List ℚ) (i j : ℕ) : Prop :=
  p.getD i 0 < p.getD j 0 ∨ (p.getD i 0 = p.getD j 0 ∧ i ≤ j)

instance (p : List ℚ) : DecidableRel (argOrder p) := fun i j =>
  inferInstanceAs (Decidable (_ ∨ _))

instance (p : List ℚ) : IsTotal ℕ (argOrder p) where
  total i j := by
    unfold argOrder
    rcases lt_trichotomy (p.getD i 0) (p.getD j 0) with h | h | h
    · exact Or.inl (Or.inl h)
    · rcases Nat.le_total i j with hij | hij
      · exact Or.inl (Or.inr ⟨h, hij⟩)
      · exact Or.inr (Or.inr ⟨h.symm, hij⟩)
    · exact Or.inr (Or.inl h)

instance (p : List ℚ) : IsTrans ℕ (argOrder p) where
  trans i j k hij hjk := by
    unfold argOrder at *
    rcases hij with h₁ | ⟨h₁, h₁'⟩ <;> rcases hjk with h₂ | ⟨h₂, h₂'⟩
    · exact Or.inl (h₁.trans h₂)
    · exact Or.inl (h₂ ▸ h₁)
    · exact Or.inl (h₁ ▸ h₂)
    · exact Or.inr ⟨h₁.trans h₂, h₁'.trans h₂'⟩

/-- `numpy.argsort(p)` modelled as the stable ascending sort of
`[0, …, p.length - 1]` by probability. -/
def argsortAsc (p : List ℚ) : List ℕ :=
  List.insertionSort (argOrder p) (List.range p.length)

/-- Python slice `xs[-k:]` (note `xs[-0:]` is the whole list). -/
def pyLastSlice {α : Type} (k : ℕ) (xs : List α) : List α :=
  if k = 0 then xs else xs.drop (xs.length - k)

/-- `utils.calculate_confidence_metrics(predictions, top_k)` applied to the
probability vector `predictions[0]`.  `none` models the `IndexError`
Python raises on an empty vector; otherwise the top-`k` indices are the
last `k` entries of the ascending argsort, reversed, and the gap is
`top1 - top2`, defaulting to `1.0` when fewer than two entries exist. -/
def calculate_confidence_metrics (p : List ℚ) (top_k : ℕ) : Option ConfidenceMetrics :=
  let top_indices := (pyLastSlice top_k (argsortAsc p)).reverse
  let top_confidences := top_indices.map (fun i => p.getD i 0)
  match top_indices, top_confidences with
  | _, [] => none
  | tis, c0 :: rest =>
    some { max_confidence := c0
           confidence_gap := match rest with | [] => 1 | c1 :: _ => c0 - c1
           top_k_indices := tis
           top_k_confidences := c0 :: rest }

/-- `utils.is_prediction_reliable`: the prediction is trusted iff the top-1
confidence meets `threshold` AND the top-1/top-2 gap meets `min_gap`. -/
def is_prediction_reliable (m : ConfidenceMetrics) (threshold min_gap : ℚ) : Bool :=
  decide (m.max_confidence ≥ threshold) && decide (m.confidence_gap ≥ min_gap)

/-! ### `utils.validate_image` -/

/-- What the file system knows about a path that exists: its size in bytes
and whether `PIL.Image.open` + `verify()` succeeds on it (`decodeError` is
the exception text when it does not). -/
structure ImageFile where
  sizeBytes : ℕ
  decodesOk : Bool
  decodeError : String
deriving DecidableEq

/-- `utils.validate_image(image_path, max_size_mb)` over an abstract file
system `fs` (`none` = the path does not exist).  Returns the
`(is_valid, message)` pair of the Python function; existence is checked
first, then the size bound, then image verification. -/
def validate_image (fs : String → Option ImageFile) (image_path : String)
    (max_size_mb : ℚ) : Bool × String :=
  match fs image_path with
  | none => (false, "File does not exist")
  | some f =>
    let file_size_mb : ℚ := (f.sizeBytes : ℚ) / (1024 * 1024)
    if file_size_mb > max_size_mb then
      (false, "File too large (" ++ fixedFormat file_size_mb 2 ++ " MB > "
        ++ pyNumRepr max_size_mb ++ " MB)")
    else if f.decodesOk then (true, "Valid image")
    else (false, "Invalid image file: " ++ f.decodeError)

/-! ### `utils.format_disease_name` -/

/-- `utils.format_disease_name(raw_name)`: replace underscores by spaces,
split at the first space into plant and disease, and title-case the
disease part (or the whole text when there is no space). -/
def format_disease_name (raw : String) : String :=
  let formatted := String.mk (raw.data.map (fun c => if c = '_' then ' ' else c))
  match splitOnceAtSpace formatted.data with
  | some (plant, disease) => String.mk plant ++ " - " ++ pyTitle (String.mk disease)
  | none => pyTitle formatted

/-! ### `blip_fallback.BLIPImageAnalyzer` -/

/-- The dictionary `BLIPImageAnalyzer.analyze_image` returns. -/
structure BlipResult where
  general_description : String
  disease_symptoms : String
  visual_features : String
  combined_description : String
deriving DecidableEq

/-- What the captioning model produced inside the `try` of
`analyze_image`: the three generated captions, or the text of whatever
exception was raised (image loading or caption generation). -/
inductive CaptionOutcome where
  | captions (general symptoms features : String)
  | failure (msg : String)
deriving DecidableEq

/-- `BLIPImageAnalyzer._create_combined_description(general, symptoms,
features)`: always emit the general caption; append the symptom caption
when it is truthy (nonempty) and differs from the general one; append the
feature caption when it is truthy and differs from both; then
`str.strip()` the result. -/
def create_combined_description (general symptoms features : String) : String :=
  let combined := "Visual Analysis: " ++ general ++ ". "
  let combined :=
    if symptoms != "" && symptoms != general then
      combined ++ ("Disease Symptoms: " ++ symptoms ++ ". ")
    else combined
  let combined :=
    if features != "" && features != general && features != symptoms then
      combined ++ ("Additional Features: " ++ features ++ ".")
    else combined
  pyStrip combined

/-- `BLIPImageAnalyzer.analyze_image`: package the three captions (and
their combination), or the fixed degraded dictionary when anything inside
the `try` block raised. -/
def analyze_image : CaptionOutcome → BlipResult
  | .captions g s f =>
    { general_description := g
      disease_symptoms := s
      visual_features := f
      combined_description := create_combined_description g s f }
  | .failure msg =>
    { general_description := "Unable to analyze image"
      disease_symptoms := "Analysis failed"
      visual_features := "Analysis failed"
      combined_description := "Error: " ++ msg }

/-! ### `llm_advisor.AgricultureAdvisor` (Ollama transport) and
`llm_advisor_hf.AgricultureAdvisor` (Hugging Face transport)

The HTTP transport is the black box: one `requests.post` call per query,
whose outcome is either a timeout, some other raised
`requests.exceptions.RequestException` (connection failure, and on the
path after `raise_for_status` any HTTP error status), or a response with
a status code and a parsed JSON body. -/

/-- Outcome of the single `requests.post` call of `_query_llm`, over the
type `β` of parsed response bodies. -/
inductive NetOutcome (β : Type) where
  | timeout
  | requestFailure (msg : String)
  | response (status : ℕ) (body : β)
deriving DecidableEq

/-- The text of the `requests.exceptions.HTTPError` that
`raise_for_status()` raises for a 4xx/5xx status (the reason phrase is
abstracted; no claim depends on the exact digits or wording). -/
def httpErrorText (status : ℕ) (url : String) : String :=
  (if status < 500 then toString status ++ " Client Error"
   else toString status ++ " Server Error") ++ " for url: " ++ url

/-- The Ollama generate endpoint the advisor posts to. -/
def ollamaApiEndpoint : String :=
  "http://localhost:11434/api/generate"

/-- `llm_advisor.AgricultureAdvisor._query_llm`: the body, when the
request succeeds with a non-error status, is the optional `response`
field of the parsed JSON.  A timeout and any other request exception are
caught and mapped to error strings; an HTTP error status raises inside
`raise_for_status` and is caught by the generic handler. -/
def query_llm_ollama (outcome : NetOutcome (Option String)) : String :=
  match outcome with
  | .timeout => "Error: Request timed out. TinyLLaMA may be processing slowly on CPU."
  | .requestFailure msg => "Error querying LLM: " ++ msg
  | .response status body =>
    if 400 ≤ status ∧ status < 600 then
      "Error querying LLM: " ++ httpErrorText status ollamaApiEndpoint
    else body.getD "No response generated"

/-- Parsed JSON body shapes `llm_advisor_hf.AgricultureAdvisor._query_llm`
distinguishes: a nonempty list (first element a dictionary with an
optional `generated_text`), a dictionary, or anything else rendered by
`str`. -/
inductive HfBody where
  | listBody (first_generated : Option String)
  | dictBody (generated : Option String)
  | otherBody (rendered : String)
deriving DecidableEq

/-- `llm_advisor_hf.AgricultureAdvisor._query_llm`: a 503 status (model
loading) and a 410 status (model gone) get dedicated placeholder strings
before `raise_for_status`; timeouts and other request exceptions get
their own placeholders; otherwise the generated text is extracted from
the body. -/
def query_llm_hf (outcome : NetOutcome HfBody) : String :=
  match outcome with
  | .timeout => "The AI advisor is taking longer than expected. Using fallback advice."
  | .requestFailure _ => "AI advisor temporarily unavailable. Using fallback advice."
  | .response status body =>
    if status = 503 then "The AI advisor is currently loading. Please try again in a moment."
    else if status = 410 then "The AI advisor model is currently unavailable. Using fallback advice."
    else if 400 ≤ status ∧ status < 600 then
      "AI advisor temporarily unavailable. Using fallback advice."
    else
      match body with
      | .listBody g => g.getD "No response generated"
      | .dictBody g => g.getD "No response generated"
      | .otherBody s => s

/-- The structured advisory dictionary built by `_parse_llm_response`
(and, shape-identically, by the local fallback
`PlantDiseaseInferencePipeline._create_basic_advice`). -/
structure AdviceBlock where
  diagnosis : String
  confidence : ℚ
  source : String
  full_advice : String
  summary : String
  timestamp : String
deriving DecidableEq

/-- `AgricultureAdvisor._extract_summary(response, max_length)`: the first
`"\n\n"`-paragraph, stripped; truncated before the last space within
`max_length` characters (plus an ellipsis) when too long. -/
def extract_summary (response : String) (max_length : ℕ) : String :=
  match splitNN response.data with
  | [] => String.mk (beforeLastSpace (response.data.take max_length)) ++ "..."
  | p :: _ =>
    let first_para := pyStrip (String.mk p)
    if first_para.data.length ≤ max_length then first_para
    else String.mk (beforeLastSpace (first_para.data.take max_length)) ++ "..."

/-- `AgricultureAdvisor._parse_llm_response`: wrap the raw LLM response
into the structured advisory block (`now` models
`_get_timestamp()`). -/
def parse_llm_response (response disease_name : String) (confidence : ℚ)
    (is_blip : Bool) (now : String) : AdviceBlock :=
  { diagnosis := disease_name
    confidence := confidence
    source := if is_blip then "Visual Analysis (BLIP)" else "CNN Classification"
    full_advice := response
    summary := extract_summary response 200
    timestamp := now }

/-- `AgricultureAdvisor._create_cnn_prompt(disease_name, confidence,
plant_type)` (identical in both transports). -/
def create_cnn_prompt (disease_name : String) (confidence : ℚ)
    (plant_type : String) : String :=
  let is_healthy := pyContains (pyLower disease_name) "healthy"
  if is_healthy then
    "You are an expert agricultural advisor. A " ++ plant_type
      ++ " plant has been analyzed and appears to be HEALTHY with "
      ++ pctFormat confidence 1 ++ " confidence.\n\nPlease provide:\n"
      ++ "1. Confirmation of healthy status\n"
      ++ "2. Best practices to maintain plant health\n"
      ++ "3. Common threats to watch for in " ++ plant_type ++ " plants\n"
      ++ "4. Preventive care recommendations\n\nKeep the advice practical, specific to "
      ++ plant_type ++ ", and encouraging for the farmer."
  else
    "You are an expert agricultural advisor. A " ++ plant_type
      ++ " plant has been diagnosed with: " ++ disease_name
      ++ "\nDetection Confidence: " ++ pctFormat confidence 1
      ++ "\n\nPlease provide comprehensive advice including:\n\n"
      ++ "1. DISEASE OVERVIEW\n   - Brief description of " ++ disease_name
      ++ "\n   - Why this disease occurs\n   - Risk level assessment\n\n"
      ++ "2. SYMPTOMS TO VERIFY\n   - Key visual symptoms to confirm diagnosis\n"
      ++ "   - Disease progression stages\n\n"
      ++ "3. TREATMENT RECOMMENDATIONS\n   - Immediate actions to take\n"
      ++ "   - Organic/chemical treatment options\n   - Application methods and timing\n\n"
      ++ "4. PREVENTIVE MEASURES\n   - Cultural practices to prevent recurrence\n"
      ++ "   - Environmental management\n   - Crop rotation suggestions\n\n"
      ++ "5. ADDITIONAL NOTES\n   - Expected recovery timeline\n"
      ++ "   - When to seek professional help\n   - Economic impact considerations\n\n"
      ++ "Keep the advice practical, actionable, and specific to " ++ plant_type
      ++ " cultivation."

/-- `AgricultureAdvisor._create_blip_prompt(visual_description,
blip_result)` (identical in both transports; the `.get` defaults of the
Python code never fire on dictionaries built by `analyze_image`). -/
def create_blip_prompt (visual_description : String) (blip_result : BlipResult) : String :=
  "You are an expert agricultural advisor. A plant image has been analyzed visually "
    ++ "because automated disease classification was uncertain.\n\nVISUAL ANALYSIS:\n"
    ++ visual_description
    ++ "\n\nOBSERVED SYMPTOMS:\n" ++ blip_result.disease_symptoms
    ++ "\n\nVISUAL FEATURES:\n" ++ blip_result.visual_features
    ++ "\n\nBased on these visual observations, please provide:\n\n"
    ++ "1. POSSIBLE DIAGNOSES\n   - Most likely disease or condition (list top 3 possibilities)\n"
    ++ "   - Reasoning for each possibility\n\n"
    ++ "2. VISUAL SYMPTOM INTERPRETATION\n   - What the observed symptoms typically indicate\n"
    ++ "   - Severity assessment\n\n"
    ++ "3. RECOMMENDED ACTIONS\n   - Immediate steps to take\n"
    ++ "   - Diagnostic tests or further examination needed\n"
    ++ "   - Treatment options for each likely diagnosis\n\n"
    ++ "4. PREVENTIVE MEASURES\n   - General plant health recommendations\n"
    ++ "   - Environmental factors to monitor\n\n"
    ++ "Note: Since this is based on visual analysis only, recommend consulting with a "
    ++ "local agricultural extension office for definitive diagnosis if symptoms worsen."

/-- The advisor the pipeline holds: the Ollama HTTP transport as a black
box (prompt to outcome) plus the clock reading used for timestamps. -/
structure AdvisorEnv where
  net : String → NetOutcome (Option String)
  now : String

/-- `llm_advisor.AgricultureAdvisor.get_advice_for_cnn_prediction`. -/
def get_advice_for_cnn_prediction (env : AdvisorEnv) (disease_name : String)
    (confidence : ℚ) (plant_type : String) : AdviceBlock :=
  let prompt := create_cnn_prompt disease_name confidence plant_type
  let response := query_llm_ollama (env.net prompt)
  parse_llm_response response disease_name confidence false env.now

/-- `llm_advisor.AgricultureAdvisor.get_advice_for_blip_analysis`. -/
def get_advice_for_blip_analysis (env : AdvisorEnv) (visual_description : String)
    (blip_result : BlipResult) : AdviceBlock :=
  let prompt := create_blip_prompt visual_description blip_result
  let response := query_llm_ollama (env.net prompt)
  parse_llm_response response "Visual Analysis Based" 0 true env.now

/-! ### `inference_pipeline.PlantDiseaseInferencePipeline` -/

/-- Tail of `numpy.argmax`: scan the remaining entries, keeping the first
index attaining the running maximum. -/
def pyArgmaxGo : List ℚ → ℕ → ℕ → ℚ → ℕ
  | [], _, bi, _ => bi
  | x :: xs, i, bi, bv =>
    if x > bv then pyArgmaxGo xs (i + 1) i x else pyArgmaxGo xs (i + 1) bi bv

/-- `numpy.argmax(p)`: lowest index of the maximum entry; `none` models
the exception raised on an empty vector. -/
def pyArgmax : List ℚ → Option ℕ
  | [] => none
  | c :: rest => some (pyArgmaxGo rest 1 0 c)

/-- One entry of the `top_3_predictions` list. -/
structure TopPrediction where
  disease : String
  confidence : ℚ
deriving DecidableEq

/-- The dictionary `_run_cnn_prediction` returns. -/
structure CnnResult where
  disease_name : String
  confidence : ℚ
  confidence_metrics : ConfidenceMetrics
  top_3_predictions : List TopPrediction
  raw_predictions : List ℚ
deriving DecidableEq

/-- The `top_3_predictions` loop of `_run_cnn_prediction`: format each
top index via the class catalog, left to right; a missing catalog entry
is the `KeyError` Python would raise. -/
def buildTopPredictions (class_indices : ℕ → Option String) :
    List ℕ → List ℚ → Except String (List TopPrediction)
  | [], _ => Except.ok []
  | _ :: _, [] => Except.ok []
  | i :: is, c :: cs =>
    match class_indices i with
    | none => Except.error ("KeyError: " ++ toString i)
    | some raw =>
      match buildTopPredictions class_indices is cs with
      | Except.error e => Except.error e
      | Except.ok rest =>
        Except.ok ({ disease := format_disease_name raw, confidence := c } :: rest)

/-- The pure part of
`PlantDiseaseInferencePipeline._run_cnn_prediction`, applied to the
probability vector the model produced (preprocessing and the model call
are the black box in front of it): top-1 index and confidence, catalog
lookup, name formatting, confidence metrics with `top_k = 3`, and the
formatted top-3 list.  A `KeyError` from the class catalog becomes an
`Except.error`, as does the degenerate empty vector. -/
def run_cnn_prediction (class_indices : ℕ → Option String) (probs : List ℚ) :
    Except String CnnResult :=
  match pyArgmax probs with
  | none => Except.error "attempt to get argmax of an empty sequence"
  | some predicted_idx =>
    let confidence := probs.getD predicted_idx 0
    match class_indices predicted_idx with
    | none => Except.error ("KeyError: " ++ toString predicted_idx)
    | some disease_name =>
      let formatted_name := format_disease_name disease_name
      match calculate_confidence_metrics probs 3 with
      | none => Except.error "list index out of range"
      | some metrics =>
        match buildTopPredictions class_indices metrics.top_k_indices
            metrics.top_k_confidences with
        | Except.error e => Except.error e
        | Except.ok top3 =>
          Except.ok
            { disease_name := formatted_name
              confidence := confidence
              confidence_metrics := metrics
              top_3_predictions := top3
              raw_predictions := probs }

/-- The pipeline result dictionary.  On failure only `success` and
`error` are populated; on success `error` is absent and the remaining
fields mirror the Python dictionary (`visual_description` is `none` when
the Python value is `None`). -/
structure DiagnosisResult where
  success : Bool
  error : Option String
  diagnosis : Option String
  confidence : Option ℚ
  source : Option String
  timestamp : Option String
  cnn_predictions : Option CnnResult
  visual_description : Option String
  advice : Option AdviceBlock
  image_path : Option String
deriving DecidableEq

/-- The `{'success': False, 'error': message}` dictionary. -/
def failedResult (msg : String) : DiagnosisResult :=
  { success := false
    error := some msg
    diagnosis := none
    confidence := none
    source := none
    timestamp := none
    cnn_predictions := none
    visual_description := none
    advice := none
    image_path := none }

/-- The successful branch of an `Except`-valued pipeline run (used to
state field properties of results without destructuring). -/
def okResult : Except String DiagnosisResult → Option DiagnosisResult
  | Except.ok r => some r
  | Except.error _ => none

/-- Everything `PlantDiseaseInferencePipeline` holds after construction,
with its external collaborators as black boxes: the file system, the
composition of `preprocess_image` with the CNN model (path to probability
vector, or a raised exception), the class catalog, the two thresholds,
the BLIP flags and its two black-box pieces (OpenCV contrast enhancement,
which may raise, and the caption generation outcome), the LLM flags and
transport, and the clock. -/
structure PipelineEnv where
  fs : String → Option ImageFile
  classify : String → Except String (List ℚ)
  class_indices : ℕ → Option String
  confidence_threshold : ℚ
  confidence_gap_threshold : ℚ
  use_blip : Bool
  blip_available : Bool
  blipEnhance : String → Except String Unit
  blipCaptions : String → CaptionOutcome
  use_llm : Bool
  advisor_available : Bool
  advisorNet : String → NetOutcome (Option String)
  now : String

/-- `PlantDiseaseInferencePipeline._run_blip_analysis`:
`utils.enhance_image_for_analysis` (OpenCV, may raise — uncaught) then
`BLIPImageAnalyzer.analyze_image` (catches its own failures). -/
def run_blip_analysis (env : PipelineEnv) (image_path : String) :
    Except String BlipResult :=
  match env.blipEnhance image_path with
  | Except.error e => Except.error e
  | Except.ok _ => Except.ok (analyze_image (env.blipCaptions image_path))

/-- The fixed healthy-case advice text of `_create_basic_advice`. -/
def basicHealthyAdviceText (confidence : ℚ) : String :=
  "Your plant appears to be HEALTHY (Confidence: " ++ pctFormat confidence 1
    ++ ").\n\nGeneral Recommendations:\n"
    ++ "• Continue current care practices\n"
    ++ "• Monitor regularly for any changes\n"
    ++ "• Maintain proper watering and fertilization\n"
    ++ "• Ensure adequate sunlight and air circulation\n\nPreventive Measures:\n"
    ++ "• Practice crop rotation\n"
    ++ "• Remove diseased plant debris\n"
    ++ "• Avoid overhead watering\n"
    ++ "• Monitor for pests regularly"

/-- The fixed diseased-case advice text of `_create_basic_advice`. -/
def basicDiseaseAdviceText (diagnosis : String) (confidence : ℚ) : String :=
  "Disease Detected: " ++ diagnosis ++ " (Confidence: " ++ pctFormat confidence 1
    ++ ")\n\nImmediate Actions:\n"
    ++ "• Isolate affected plants if possible\n"
    ++ "• Remove severely infected leaves\n"
    ++ "• Improve air circulation around plants\n"
    ++ "• Avoid overhead watering\n\nTreatment Options:\n"
    ++ "• Consult with local agricultural extension office\n"
    ++ "• Consider appropriate fungicides or treatments\n"
    ++ "• Follow product labels carefully\n\nPreventive Measures:\n"
    ++ "• Practice crop rotation\n"
    ++ "• Use disease-resistant varieties\n"
    ++ "• Maintain proper plant spacing\n"
    ++ "• Monitor plants regularly\n\n"
    ++ "Note: For specific treatment recommendations, please consult with a local agricultural expert."

/-- `PlantDiseaseInferencePipeline._create_basic_advice(diagnosis,
confidence)`: the deterministic local advisory generator, branching only
on whether the lowercased diagnosis contains `healthy`. -/
def create_basic_advice (diagnosis : String) (confidence : ℚ) (now : String) :
    AdviceBlock :=
  let is_healthy := pyContains (pyLower diagnosis) "healthy"
  let advice_text :=
    if is_healthy then basicHealthyAdviceText confidence
    else basicDiseaseAdviceText diagnosis confidence
  { diagnosis := diagnosis
    confidence := confidence
    source := "Basic Advisory"
    full_advice := advice_text
    summary := "Detected: " ++ diagnosis ++ " with " ++ pctFormat confidence 1
      ++ " confidence"
    timestamp := now }

/-- Python `final_diagnosis.split(' - ')[0]`: the text before the first
occurrence of the separator. -/
def takeUntilSub (sep : List Char) : List Char → List Char
  | [] => []
  | c :: rest =>
    if listStartsWith sep (c :: rest) then [] else c :: takeUntilSub sep rest

/-- The routing data predict accumulates before step 3 (`blip_result` is
the Python local variable, defined only on the visual-fallback path). -/
structure RouteData where
  final_diagnosis : String
  final_confidence : ℚ
  source : String
  visual_description : Option String
  blip_result : Option BlipResult

/-- Step 3 of `predict` (advice generation): the LLM advisor when enabled
and available — the BLIP-specific entry point when the source starts with
`"BLIP"`, otherwise the CNN entry point with the plant type extracted
before `' - '` — and the local `_create_basic_advice` fallback
otherwise.  On the only path whose source starts with `"BLIP"` the two
optional fields are populated, so the `getD` defaults never fire. -/
def adviceStep (env : PipelineEnv) (rd : RouteData) : AdviceBlock :=
  if env.use_llm && env.advisor_available then
    if listStartsWith "BLIP".data rd.source.data then
      get_advice_for_blip_analysis { net := env.advisorNet, now := env.now }
        (rd.visual_description.getD "")
        (rd.blip_result.getD (analyze_image (CaptionOutcome.failure "")))
    else
      let plant_type :=
        if listContainsSub " - ".data rd.final_diagnosis.data then
          String.mk (takeUntilSub " - ".data rd.final_diagnosis.data)
        else "plant"
      get_advice_for_cnn_prediction { net := env.advisorNet, now := env.now }
        rd.final_diagnosis rd.final_confidence plant_type
  else create_basic_advice rd.final_diagnosis rd.final_confidence env.now

/-- Step 5 of `predict`: the success dictionary. -/
def assembleResult (env : PipelineEnv) (image_path : String) (cnn : CnnResult)
    (rd : RouteData) : DiagnosisResult :=
  { success := true
    error := none
    diagnosis := some rd.final_diagnosis
    confidence := some rd.final_confidence
    source := some rd.source
    timestamp := some env.now
    cnn_predictions := some cnn
    visual_description := rd.visual_description
    advice := some (adviceStep env rd)
    image_path := some image_path }

/-- `PlantDiseaseInferencePipeline.predict(image_path)`: validate (with
the 10 MB default), classify, route on reliability, generate advice,
assemble.  Only validation failures are turned into a `success=False`
dictionary; an exception raised by the classifier stage, the catalog
lookup, or the OpenCV enhancement before captioning propagates as
`Except.error` — `predict` has no exception handler of its own. -/
def predict (env : PipelineEnv) (image_path : String) :
    Except String DiagnosisResult :=
  let v := validate_image env.fs image_path 10
  if !v.1 then Except.ok (failedResult v.2)
  else
    match env.classify image_path with
    | Except.error e => Except.error e
    | Except.ok probs =>
      match run_cnn_prediction env.class_indices probs with
      | Except.error e => Except.error e
      | Except.ok cnn_result =>
        let use_cnn := is_prediction_reliable cnn_result.confidence_metrics
          env.confidence_threshold env.confidence_gap_threshold
        if use_cnn then
          Except.ok (assembleResult env image_path cnn_result
            { final_diagnosis := cnn_result.disease_name
              final_confidence := cnn_result.confidence
              source := "CNN Classification"
              visual_description := none
              blip_result := none })
        else if env.use_blip && env.blip_available then
          match run_blip_analysis env image_path with
          | Except.error e => Except.error e
          | Except.ok blip_result =>
            Except.ok (assembleResult env image_path cnn_result
              { final_diagnosis := "Uncertain - Visual Analysis"
                final_confidence := cnn_result.confidence
                source := "BLIP Visual Analysis"
                visual_description := some blip_result.combined_description
                blip_result := some blip_result })
        else
          Except.ok (assembleResult env image_path cnn_result
            { final_diagnosis := cnn_result.disease_name ++ " (Low Confidence)"
              final_confidence := cnn_result.confidence
              source := "CNN Classification (Low Confidence)"
              visual_description := none
              blip_result := none })

/-! ### Verification helpers and concrete instances -/

/-- The character at position `n` of a string, if any (used to separate
message families syntactically). -/
def probeChar (n : ℕ) (s : String) : Option Char :=
  (s.data.drop n).head?

/-- The composite-caption rule exactly as the claim words it (the second
definition of a refinement comparison, written from the specification,
not from the code): the symptom caption is included iff distinct from the
general one, the feature caption iff distinct from both, with no
condition on emptiness. -/
def specCombinedDescription (general symptoms features : String) : String :=
  pyStrip ("Visual Analysis: " ++ general ++ ". "
    ++ (if symptoms ≠ general then "Disease Symptoms: " ++ symptoms ++ ". " else "")
    ++ (if features ≠ general ∧ features ≠ symptoms then
          "Additional Features: " ++ features ++ "." else ""))

/-- The composite-caption rule as the code actually behaves (amendment of
the previous definition): a caption is also skipped when it is empty
(Python truthiness), matching the `if symptoms and ...` guards. -/
def amendedCombinedDescription (general symptoms features : String) : String :=
  pyStrip ("Visual Analysis: " ++ general ++ ". "
    ++ (if symptoms ≠ "" ∧ symptoms ≠ general then
          "Disease Symptoms: " ++ symptoms ++ ". " else "")
    ++ (if features ≠ "" ∧ features ≠ general ∧ features ≠ symptoms then
          "Additional Features: " ++ features ++ "." else ""))

/-- The metrics of the one-class vector `[1.0]`. -/
def oneClassMetrics : ConfidenceMetrics :=
  { max_confidence := 1
    confidence_gap := 1
    top_k_indices := [0]
    top_k_confidences := [1] }

/-- A three-class catalog for concrete runs. -/
def ciDemo : ℕ → Option String := fun i =>
  if i = 0 then some "Tomato_Late_blight"
  else if i = 1 then some "Tomato_Early_blight"
  else if i = 2 then some "Potato_healthy" else none

/-- A small, decodable image file. -/
def fileOk : ImageFile :=
  { sizeBytes := 200000, decodesOk := true, decodeError := "" }

/-- A baseline environment for concrete runs: a valid file everywhere, a
classifier returning the ambiguous vector `[0.4, 0.35, 0.25]`, the demo
catalog, the default thresholds `0.7`/`0.2`, captioning enabled and
functional, no LLM advisor. -/
def demoEnv : PipelineEnv :=
  { fs := fun _ => some fileOk
    classify := fun _ => Except.ok [mkRat 2 5, mkRat 7 20, mkRat 1 4]
    class_indices := ciDemo
    confidence_threshold := mkRat 7 10
    confidence_gap_threshold := mkRat 1 5
    use_blip := true
    blip_available := true
    blipEnhance := fun _ => Except.ok ()
    blipCaptions := fun _ => CaptionOutcome.captions "a leaf" "spots" "brown spots"
    use_llm := false
    advisor_available := false
    advisorNet := fun _ => NetOutcome.timeout
    now := "2026-01-01 12:00:00" }

/-- The environment whose classifier stage raises. -/
def envClassifierBoom : PipelineEnv :=
  { demoEnv with classify := fun _ => Except.error "CNN model failure" }

/-- The demo environment with captioning disabled. -/
def envNoBlip : PipelineEnv :=
  { demoEnv with use_blip := false }

/-- The demo environment with a confident classifier
(`[0.9, 0.05, 0.05]`). -/
def envConfident : PipelineEnv :=
  { demoEnv with classify := fun _ => Except.ok [mkRat 9 10, mkRat 1 20, mkRat 1 20] }

/-- An environment whose path does not exist. -/
def envMissingFile : PipelineEnv :=
  { demoEnv with fs := fun _ => none }

/-- A 20 MB file, above the 10 MB default bound. -/
def fileBig : ImageFile :=
  { sizeBytes := 20000000, decodesOk := true, decodeError := "" }

/-- A file that exists but fails `PIL` verification. -/
def fileBad : ImageFile :=
  { sizeBytes := 200000, decodesOk := false,
    decodeError := "cannot identify image file" }

/-- An environment whose file is 20 MB, above the 10 MB default bound. -/
def envBigFile : PipelineEnv :=
  { demoEnv with fs := fun _ => some fileBig }

/-- An environment whose file exists but fails `PIL` verification. -/
def envBadFile : PipelineEnv :=
  { demoEnv with fs := fun _ => some fileBad }

/-- The classifier stage output of `demoEnv` (vector `[0.4, 0.35, 0.25]`
against `ciDemo`). -/
def rAmbiguous : CnnResult :=
  { disease_name := "Tomato - Late Blight"
    confidence := mkRat 2 5
    confidence_metrics :=
      { max_confidence := mkRat 2 5
        confidence_gap := mkRat 1 20
        top_k_indices := [0, 1, 2]
        top_k_confidences := [mkRat 2 5, mkRat 7 20, mkRat 1 4] }
    top_3_predictions :=
      [{ disease := "Tomato - Late Blight", confidence := mkRat 2 5 },
       { disease := "Tomato - Early Blight", confidence := mkRat 7 20 },
       { disease := "Potato - Healthy", confidence := mkRat 1 4 }]
    raw_predictions := [mkRat 2 5, mkRat 7 20, mkRat 1 4] }

/-- The classifier stage output of `envConfident` (vector
`[0.9, 0.05, 0.05]` against `ciDemo`; note the top-k tie at `0.05` is
listed index 2 before index 1). -/
def rConfident : CnnResult :=
  { disease_name := "Tomato - Late Blight"
    confidence := mkRat 9 10
    confidence_metrics :=
      { max_confidence := mkRat 9 10
        confidence_gap := mkRat 17 20
        top_k_indices := [0, 2, 1]
        top_k_confidences := [mkRat 9 10, mkRat 1 20, mkRat 1 20] }
    top_3_predictions :=
      [{ disease := "Tomato - Late Blight", confidence := mkRat 9 10 },
       { disease := "Potato - Healthy", confidence := mkRat 1 20 },
       { disease := "Tomato - Early Blight", confidence := mkRat 1 20 }]
    raw_predictions := [mkRat 9 10, mkRat 1 20, mkRat 1 20] }

/-- The caption analysis of `demoEnv`. -/
def brDemo : BlipResult :=
  { general_description := "a leaf"
    disease_symptoms := "spots"
    visual_features := "brown spots"
    combined_description :=
      "Visual Analysis: a leaf. Disease Symptoms: spots. Additional Features: brown spots." }

/-- The metrics of the ambiguous two-way tie `[0.5, 0.5]`. -/
def tieMetrics : ConfidenceMetrics :=
  { max_confidence := mkRat 1 2
    confidence_gap := 0
    top_k_indices := [1, 0]
    top_k_confidences := [mkRat 1 2, mkRat 1 2] }

/-! ## Theorems settling the claims -/

/-- C2: for every confidence metrics value and every pair of
caller-supplied thresholds, `is_prediction_reliable` returns true iff
`max_confidence ≥ confidence_threshold` AND `confidence_gap ≥
gap_threshold`; equivalently it returns false exactly when either
condition fails — AND semantics, not OR, so a high confidence with a
small gap is not reliable. -/
theorem reliability_is_conjunction (m : ConfidenceMetrics) (t g : ℚ) :
    (is_prediction_reliable m t g = true ↔ t ≤ m.max_confidence ∧ g ≤ m.confidence_gap)
    ∧ (is_prediction_reliable m t g = false ↔ m.max_confidence < t ∨ m.confidence_gap < g) := by
  have h1 : is_prediction_reliable m t g = true
      ↔ t ≤ m.max_confidence ∧ g ≤ m.confidence_gap := by
    simp [is_prediction_reliable, ge_iff_le]
  refine ⟨h1, ?_⟩
  rw [Bool.eq_false_iff, ne_eq, h1, not_and_or, not_le, not_le]

/-- C10: the advisory block built for the visual-fallback route always
carries the fixed diagnosis `"Visual Analysis Based"`, confidence `0.0`,
and source `"Visual Analysis (BLIP)"`, whatever the transport returns and
whatever description is passed in. -/
theorem blip_advice_fixed_fields (env : AdvisorEnv) (vd : String) (br : BlipResult) :
    (get_advice_for_blip_analysis env vd br).diagnosis = "Visual Analysis Based"
    ∧ (get_advice_for_blip_analysis env vd br).confidence = 0
    ∧ (get_advice_for_blip_analysis env vd br).source = "Visual Analysis (BLIP)" :=
  ⟨rfl, rfl, rfl⟩

/-- C9: on the one-class vector `[1.0]` the computed metrics have
`confidence_gap = 1.0` (and `max_confidence = 1.0`) for every `top_k`,
and `is_prediction_reliable` holds for every confidence threshold at most
`1.0` and every gap threshold at most `1.0`. -/
theorem one_class_vector_reliable (top_k : ℕ) (t g : ℚ) (ht : t ≤ 1) (hg : g ≤ 1) :
    calculate_confidence_metrics [1] top_k = some oneClassMetrics
    ∧ oneClassMetrics.confidence_gap = 1
    ∧ oneClassMetrics.max_confidence = 1
    ∧ is_prediction_reliable oneClassMetrics t g = true := by
  refine ⟨?_, rfl, rfl, ?_⟩
  · cases top_k with
    | zero => rfl
    | succ k =>
      have ha : argsortAsc [1] = [0] := rfl
      have h0 : (1 : ℕ) - (k + 1) = 0 := Nat.sub_eq_zero_of_le (Nat.succ_le_succ (Nat.zero_le k))
      unfold calculate_confidence_metrics pyLastSlice
      rw [ha]
      simp only [List.length_singleton, h0, List.drop_zero, Nat.succ_ne_zero, if_false]
      rfl
  · simp [is_prediction_reliable, oneClassMetrics, ge_iff_le, ht, hg]

/-- C9 witness: the concrete instance `top_k = 3`, thresholds
`0.7`/`0.2`. -/
theorem one_class_vector_reliable_witness :
    calculate_confidence_metrics [1] 3 = some oneClassMetrics
    ∧ oneClassMetrics.confidence_gap = 1
    ∧ oneClassMetrics.max_confidence = 1
    ∧ is_prediction_reliable oneClassMetrics (mkRat 7 10) (mkRat 1 5) = true :=
  one_class_vector_reliable 3 (mkRat 7 10) (mkRat 1 5) (by decide) (by decide)

/-- C7 counterexample: in the Ollama adapter the pipeline actually uses,
a model-loading response (HTTP 503) is not given a loading-specific
placeholder: it produces exactly the same string as a plain network
failure whose exception happens to carry the same text, so the three
failure kinds are not each mapped to a distinct placeholder there. -/
theorem ollama_loading_not_distinct :
    query_llm_ollama (NetOutcome.response 503 none)
      = query_llm_ollama (NetOutcome.requestFailure (httpErrorText 503 ollamaApiEndpoint)) := by
  decide

/-- C7 amended: neither `_query_llm` ever raises — every outcome is
converted to a human-readable string.  In the Hugging Face adapter,
timeout, network failure, and a model-loading (503) response each map to
a distinct fixed placeholder.  In the Ollama adapter the timeout
placeholder is distinct from every other-failure placeholder, but a
loading response is folded into the generic request-error placeholder
rather than receiving a dedicated one. -/
theorem query_llm_degraded_strings (e : String) (b : HfBody) (s : Option String) :
    query_llm_hf NetOutcome.timeout
      = "The AI advisor is taking longer than expected. Using fallback advice."
    ∧ query_llm_hf (NetOutcome.requestFailure e)
      = "AI advisor temporarily unavailable. Using fallback advice."
    ∧ query_llm_hf (NetOutcome.response 503 b)
      = "The AI advisor is currently loading. Please try again in a moment."
    ∧ query_llm_hf NetOutcome.timeout ≠ query_llm_hf (NetOutcome.requestFailure e)
    ∧ query_llm_hf NetOutcome.timeout ≠ query_llm_hf (NetOutcome.response 503 b)
    ∧ query_llm_hf (NetOutcome.requestFailure e) ≠ query_llm_hf (NetOutcome.response 503 b)
    ∧ query_llm_ollama NetOutcome.timeout
      = "Error: Request timed out. TinyLLaMA may be processing slowly on CPU."
    ∧ query_llm_ollama (NetOutcome.requestFailure e) = "Error querying LLM: " ++ e
    ∧ query_llm_ollama (NetOutcome.response 503 s)
      = "Error querying LLM: " ++ httpErrorText 503 ollamaApiEndpoint
    ∧ query_llm_ollama NetOutcome.timeout ≠ "Error querying LLM: " ++ e := by
  refine ⟨rfl, rfl, rfl, ?_, ?_, ?_, rfl, rfl, rfl, ?_⟩
  · show ("The AI advisor is taking longer than expected. Using fallback advice." : String)
      ≠ "AI advisor temporarily unavailable. Using fallback advice."
    decide
  · show ("The AI advisor is taking longer than expected. Using fallback advice." : String)
      ≠ "The AI advisor is currently loading. Please try again in a moment."
    decide
  · show ("AI advisor temporarily unavailable. Using fallback advice." : String)
      ≠ "The AI advisor is currently loading. Please try again in a moment."
    decide
  · intro h
    have h6 := congrArg (fun s => s.data.take 6) h
    simp only [query_llm_ollama, String.data_append,
      List.take_append_of_le_length
        (by decide : 6 ≤ "Error querying LLM: ".data.length)] at h6
    exact absurd h6 (by decide)

/-- C6 counterexample: with an empty symptom caption distinct from the
general caption, the code skips the symptom segment (Python truthiness),
while the claim's rule — include iff distinct — would emit it; the two
composite descriptions differ at this input. -/
theorem combined_description_truthiness_gap :
    create_combined_description "a leaf" "" "brown spots"
      = "Visual Analysis: a leaf. Additional Features: brown spots."
    ∧ specCombinedDescription "a leaf" "" "brown spots"
      = "Visual Analysis: a leaf. Disease Symptoms: . Additional Features: brown spots."
    ∧ create_combined_description "a leaf" "" "brown spots"
      ≠ specCombinedDescription "a leaf" "" "brown spots" := by
  refine ⟨by decide, by decide, by decide⟩

/-- C6 amended: the composite description always includes the general
caption; it includes the symptom segment iff the symptom caption is
nonempty and distinct from the general caption; and it includes the
feature segment iff the feature caption is nonempty and distinct from
both earlier captions — in the fixed order general, symptoms,
features. -/
theorem combined_description_amended (general symptoms features : String) :
    create_combined_description general symptoms features
      = amendedCombinedDescription general symptoms features := by
  unfold create_combined_description amendedCombinedDescription
  by_cases h1 : symptoms = "" <;> by_cases h2 : symptoms = general <;>
    by_cases h3 : features = "" <;> by_cases h4 : features = general <;>
      by_cases h5 : features = symptoms <;>
        simp [h1, h2, h3, h4, h5, String.append_assoc, bne_iff_ne]

/-- C1 counterexample: with a valid image file but a classifier stage
that raises, `predict` does not return a `success=False` dictionary — the
exception propagates out of `predict` (there is no handler around steps
2–5; the demo `main` and the FastAPI handler catch it in the caller). -/
theorem predict_raises_on_classifier_failure :
    predict envClassifierBoom "leaf.jpg" = Except.error "CNN model failure"
    ∧ okResult (predict envClassifierBoom "leaf.jpg") = none := by
  exact ⟨rfl, rfl⟩

/-- C1 amended: only validation failures are converted into a
`success=False` result; an exception arising in the classification stage
of steps 2–5 is not caught at the orchestrator boundary and propagates to
the caller of `predict` with its message intact. -/
theorem predict_propagates_classifier_error (env : PipelineEnv) (path e : String)
    (hval : (validate_image env.fs path 10).1 = true)
    (hcls : env.classify path = Except.error e) :
    predict env path = Except.error e := by
  simp [predict, hval, hcls]

/-- C1 witness: the amended theorem applied to the concrete failing
classifier environment. -/
theorem predict_propagates_classifier_error_witness :
    (validate_image envClassifierBoom.fs "leaf.jpg" 10).1 = true
    ∧ predict envClassifierBoom "leaf.jpg" = Except.error "CNN model failure" :=
  ⟨by decide, predict_propagates_classifier_error envClassifierBoom "leaf.jpg"
    "CNN model failure" (by decide) rfl⟩

/-- C5: `predict` rejects a non-existent path, an oversized file, and a
file failing image verification, each as a `success=False` result whose
message comes from validation; the conclusion holds for every
environment sharing that file system — in particular for every
classifier, captioner and advisor, which is exactly the sense in which no
model is invoked — and the three message families are pairwise
distinct. -/
theorem validation_rejections (env : PipelineEnv) (path : String) (f : ImageFile) :
    (env.fs path = none →
      predict env path = Except.ok (failedResult "File does not exist"))
    ∧ (env.fs path = some f → 10 < (f.sizeBytes : ℚ) / (1024 * 1024) →
      predict env path = Except.ok (failedResult ("File too large ("
        ++ fixedFormat ((f.sizeBytes : ℚ) / (1024 * 1024)) 2 ++ " MB > "
        ++ pyNumRepr 10 ++ " MB)")))
    ∧ (env.fs path = some f → ¬(10 < (f.sizeBytes : ℚ) / (1024 * 1024)) →
      f.decodesOk = false →
      predict env path = Except.ok (failedResult ("Invalid image file: " ++ f.decodeError)))
    ∧ ("File does not exist" : String) ≠ "File too large ("
        ++ fixedFormat ((f.sizeBytes : ℚ) / (1024 * 1024)) 2 ++ " MB > "
        ++ pyNumRepr 10 ++ " MB)"
    ∧ ("File does not exist" : String) ≠ "Invalid image file: " ++ f.decodeError
    ∧ ("File too large (" ++ fixedFormat ((f.sizeBytes : ℚ) / (1024 * 1024)) 2
        ++ " MB > " ++ pyNumRepr 10 ++ " MB)") ≠ "Invalid image file: " ++ f.decodeError := by
  refine ⟨?_, ?_, ?_, ?_, ?_, ?_⟩
  · intro h
    simp [predict, validate_image, h]
  · intro h hsz
    simp [predict, validate_image, h, gt_iff_lt, hsz]
  · intro h hsz hdec
    simp [predict, validate_image, h, gt_iff_lt, hsz, hdec]
  · intro h
    have h6 := congrArg (fun s => s.data.take 6) h
    simp only [String.data_append, List.append_assoc] at h6
    rw [List.take_append_of_le_length
      (by decide : (6 : ℕ) ≤ "File too large (".data.length)] at h6
    exact absurd h6 (by decide)
  · intro h
    have h1 := congrArg (fun s => s.data.take 1) h
    simp only [String.data_append] at h1
    rw [List.take_append_of_le_length
      (by decide : (1 : ℕ) ≤ "Invalid image file: ".data.length)] at h1
    exact absurd h1 (by decide)
  · intro h
    have h1 := congrArg (fun s => s.data.take 1) h
    simp only [String.data_append, List.append_assoc] at h1
    rw [List.take_append_of_le_length
        (by decide : (1 : ℕ) ≤ "File too large (".data.length),
      List.take_append_of_le_length
        (by decide : (1 : ℕ) ≤ "Invalid image file: ".data.length)] at h1
    exact absurd h1 (by decide)

/-- C5 witness: the three rejections at concrete environments. -/
theorem validation_rejections_witness :
    predict envMissingFile "leaf.jpg" = Except.ok (failedResult "File does not exist")
    ∧ predict envBigFile "leaf.jpg" = Except.ok (failedResult ("File too large ("
        ++ fixedFormat ((fileBig.sizeBytes : ℚ) / (1024 * 1024)) 2 ++ " MB > "
        ++ pyNumRepr 10 ++ " MB)"))
    ∧ predict envBadFile "leaf.jpg" = Except.ok (failedResult ("Invalid image file: "
        ++ fileBad.decodeError)) :=
  ⟨(validation_rejections envMissingFile "leaf.jpg" fileOk).1 rfl,
   (validation_rejections envBigFile "leaf.jpg" fileBig).2.1 rfl (by decide),
   (validation_rejections envBadFile "leaf.jpg" fileBad).2.2.1 rfl (by decide) rfl⟩

/-- C4: when the metrics are deemed not reliable, the result of `predict`
is still a success; with captioning available its source is the
visual-fallback route, the diagnosis is the fixed uncertain placeholder,
the confidence is the classifier top-1 confidence carried through
unchanged, and the visual description is the captioner's combined
description; with captioning unavailable the diagnosis is the top-1 label
annotated as low-confidence, the confidence is unchanged, and no visual
description is present. -/
theorem unreliable_route_fields (env : PipelineEnv) (path : String) (probs : List ℚ)
    (r : CnnResult) (br : BlipResult)
    (hval : (validate_image env.fs path 10).1 = true)
    (hcls : env.classify path = Except.ok probs)
    (hcnn : run_cnn_prediction env.class_indices probs = Except.ok r)
    (hunrel : is_prediction_reliable r.confidence_metrics env.confidence_threshold
      env.confidence_gap_threshold = false) :
    ((env.use_blip && env.blip_available) = true →
      run_blip_analysis env path = Except.ok br →
      ((okResult (predict env path)).map DiagnosisResult.success = some true
       ∧ (okResult (predict env path)).bind DiagnosisResult.source
           = some "BLIP Visual Analysis"
       ∧ (okResult (predict env path)).bind DiagnosisResult.diagnosis
           = some "Uncertain - Visual Analysis"
       ∧ (okResult (predict env path)).bind DiagnosisResult.confidence = some r.confidence
       ∧ (okResult (predict env path)).bind DiagnosisResult.visual_description
           = some br.combined_description))
    ∧ ((env.use_blip && env.blip_available) = false →
      ((okResult (predict env path)).map DiagnosisResult.success = some true
       ∧ (okResult (predict env path)).bind DiagnosisResult.source
           = some "CNN Classification (Low Confidence)"
       ∧ (okResult (predict env path)).bind DiagnosisResult.diagnosis
           = some (r.disease_name ++ " (Low Confidence)")
       ∧ (okResult (predict env path)).bind DiagnosisResult.confidence = some r.confidence
       ∧ (okResult (predict env path)).bind DiagnosisResult.visual_description = none)) := by
  constructor
  · intro hblip hbr
    simp [predict, hval, hcls, hcnn, hunrel, hblip, hbr, okResult, assembleResult]
  · intro hblip
    simp [predict, hval, hcls, hcnn, hunrel, hblip, okResult, assembleResult]

/-- C4 witness: both branches at the concrete ambiguous vector
`[0.4, 0.35, 0.25]` with thresholds `0.7`/`0.2`. -/
theorem unreliable_route_fields_witness :
    (okResult (predict demoEnv "leaf.jpg")).bind DiagnosisResult.source
      = some "BLIP Visual Analysis"
    ∧ (okResult (predict demoEnv "leaf.jpg")).bind DiagnosisResult.diagnosis
      = some "Uncertain - Visual Analysis"
    ∧ (okResult (predict demoEnv "leaf.jpg")).bind DiagnosisResult.confidence
      = some (mkRat 2 5)
    ∧ (okResult (predict demoEnv "leaf.jpg")).bind DiagnosisResult.visual_description
      = some brDemo.combined_description
    ∧ (okResult (predict envNoBlip "leaf.jpg")).bind DiagnosisResult.diagnosis
      = some ("Tomato - Late Blight" ++ " (Low Confidence)")
    ∧ (okResult (predict envNoBlip "leaf.jpg")).bind DiagnosisResult.confidence
      = some (mkRat 2 5) := by
  have hb := (unreliable_route_fields demoEnv "leaf.jpg" [mkRat 2 5, mkRat 7 20, mkRat 1 4]
    rAmbiguous brDemo (by decide) rfl rfl (by decide)).1 rfl rfl
  have hn := (unreliable_route_fields envNoBlip "leaf.jpg" [mkRat 2 5, mkRat 7 20, mkRat 1 4]
    rAmbiguous brDemo (by decide) rfl rfl (by decide)).2 rfl
  exact ⟨hb.2.1, hb.2.2.1, hb.2.2.2.1, hb.2.2.2.2, hn.2.2.1, hn.2.2.2.1⟩

/-- C8: with no advisory service (`use_llm` off or the advisor handle
absent), `predict` still succeeds and its advisory block is exactly the
one the deterministic local template generator produces; that generator
fills the same record fields as the service-backed path (`diagnosis`,
`confidence`, `source`, `full_advice`, `summary`, `timestamp` — the same
`AdviceBlock` shape), its `full_advice` is never empty, and its advice
text is keyed only on whether the diagnosis indicates a healthy state (in
particular any two healthy diagnoses yield identical advice text). -/
theorem local_fallback_advice (env : PipelineEnv) (path : String) (probs : List ℚ)
    (r : CnnResult)
    (hllm : (env.use_llm && env.advisor_available) = false)
    (hval : (validate_image env.fs path 10).1 = true)
    (hcls : env.classify path = Except.ok probs)
    (hcnn : run_cnn_prediction env.class_indices probs = Except.ok r)
    (hrel : is_prediction_reliable r.confidence_metrics env.confidence_threshold
      env.confidence_gap_threshold = true) :
    (okResult (predict env path)).map DiagnosisResult.success = some true
    ∧ (okResult (predict env path)).bind DiagnosisResult.advice
        = some (create_basic_advice r.disease_name r.confidence env.now)
    ∧ (∀ d c ts, (create_basic_advice d c ts).full_advice ≠ "")
    ∧ (∀ d c ts, (create_basic_advice d c ts).diagnosis = d
        ∧ (create_basic_advice d c ts).confidence = c
        ∧ (create_basic_advice d c ts).source = "Basic Advisory"
        ∧ (create_basic_advice d c ts).timestamp = ts)
    ∧ (∀ d₁ d₂ c ts, pyContains (pyLower d₁) "healthy" = true →
        pyContains (pyLower d₂) "healthy" = true →
        (create_basic_advice d₁ c ts).full_advice
          = (create_basic_advice d₂ c ts).full_advice) := by
  refine ⟨?_, ?_, ?_, ?_, ?_⟩
  · simp [predict, hval, hcls, hcnn, hrel, okResult, assembleResult]
  · simp [predict, hval, hcls, hcnn, hrel, okResult, assembleResult, adviceStep, hllm]
  · intro d c ts h
    rcases hcase : pyContains (pyLower d) "healthy" with _ | _ <;>
      simp only [create_basic_advice, hcase, if_true, if_false, Bool.false_eq_true] at h
    · have hlen := congrArg String.length h
      simp only [basicDiseaseAdviceText, String.length_append, String.length_empty] at hlen
      have hx : 0 < (" (Confidence: " : String).length := by decide
      omega
    · have hlen := congrArg String.length h
      simp only [basicHealthyAdviceText, String.length_append, String.length_empty] at hlen
      have hx : 0 < ("• Continue current care practices\n" : String).length := by decide
      omega
  · intro d c ts
    exact ⟨rfl, rfl, rfl, rfl⟩
  · intro d₁ d₂ c ts h1 h2
    simp [create_basic_advice, h1, h2]

/-- C8 witness: the confident run with no advisor configured. -/
theorem local_fallback_advice_witness :
    (okResult (predict envConfident "leaf.jpg")).map DiagnosisResult.success = some true
    ∧ (okResult (predict envConfident "leaf.jpg")).bind DiagnosisResult.advice
        = some (create_basic_advice rConfident.disease_name rConfident.confidence
            envConfident.now)
    ∧ (create_basic_advice "Tomato - Healthy" (mkRat 9 10) "t").full_advice ≠ "" := by
  have h := local_fallback_advice envConfident "leaf.jpg"
    [mkRat 9 10, mkRat 1 20, mkRat 1 20] rConfident rfl (by decide) rfl rfl
    (by decide)
  exact ⟨h.1, h.2.1, h.2.2.1 "Tomato - Healthy" (mkRat 9 10) "t"⟩

/-- Helper: the Python slice `xs[-k:]` is a `drop`. -/
theorem pyLastSlice_eq_drop {α : Type} (k : ℕ) (xs : List α) :
    pyLastSlice k xs = xs.drop (if k = 0 then 0 else xs.length - k) := by
  unfold pyLastSlice
  split <;> simp

/-- Helper: the index list a successful metrics computation carries is
the reversed tail slice of the ascending argsort. -/
theorem topk_indices_eq (p : List ℚ) (k : ℕ) (m : ConfidenceMetrics)
    (h : calculate_confidence_metrics p k = some m) :
    m.top_k_indices = (pyLastSlice k (argsortAsc p)).reverse := by
  simp only [calculate_confidence_metrics] at h
  cases hl : (pyLastSlice k (argsortAsc p)).reverse with
  | nil => rw [hl] at h; simp at h
  | cons i is =>
    rw [hl] at h
    simp only [List.map_cons, Option.some.injEq] at h
    rw [← h]

/-- C3 counterexample: on the tied vector `[0.5, 0.5]` with `top_k = 2`
the computed top-k indices are `[1, 0]` — the tie is broken by the
highest index first, not by the lowest as the claim states (ascending
stable argsort keeps index order among equals, and the final reversal
inverts it). -/
theorem topk_tie_highest_index_first :
    calculate_confidence_metrics [mkRat 1 2, mkRat 1 2] 2 = some tieMetrics
    ∧ tieMetrics.top_k_indices = [1, 0]
    ∧ tieMetrics.top_k_indices ≠ [0, 1] :=
  ⟨by decide, rfl, by decide⟩

/-- C3 amended: for every probability vector and every `top_k`, the
computed `top_k_indices` are distinct valid indices sorted descending by
probability with ties broken by the HIGHEST vector index first (the
reversal of the stable ascending argsort), and every index left out has
probability at most that of every index kept — so the output is a
deterministic top-k selection. -/
theorem topk_indices_characterization (p : List ℚ) (k : ℕ) (m : ConfidenceMetrics)
    (h : calculate_confidence_metrics p k = some m) :
    m.top_k_indices.Pairwise (fun i j =>
        p.getD j 0 < p.getD i 0 ∨ (p.getD i 0 = p.getD j 0 ∧ j < i))
    ∧ m.top_k_indices.Nodup
    ∧ (∀ i ∈ m.top_k_indices, i < p.length)
    ∧ (∀ j, j < p.length → j ∉ m.top_k_indices →
        ∀ i ∈ m.top_k_indices, p.getD j 0 ≤ p.getD i 0) := by
  have htop := topk_indices_eq p k m h
  set s := argsortAsc p with hs_def
  have hsort : List.Pairwise (argOrder p) s :=
    List.sorted_insertionSort (argOrder p) (List.range p.length)
  have hperm : List.Perm s (List.range p.length) :=
    List.perm_insertionSort (argOrder p) (List.range p.length)
  have hnodup : s.Nodup := hperm.symm.nodup (List.nodup_range p.length)
  obtain ⟨jd, hdrop⟩ : ∃ jd, pyLastSlice k s = s.drop jd :=
    ⟨_, pyLastSlice_eq_drop k s⟩
  rw [hdrop] at htop
  have hsub : List.Sublist (s.drop jd) s := List.drop_sublist jd s
  have hpair2 : List.Pairwise (fun i j => argOrder p i j ∧ i ≠ j) s := hsort.and hnodup
  have hdp : List.Pairwise (fun i j => argOrder p i j ∧ i ≠ j) (s.drop jd) :=
    hpair2.sublist hsub
  refine ⟨?_, ?_, ?_, ?_⟩
  · rw [htop, List.pairwise_reverse]
    refine List.Pairwise.imp ?_ hdp
    intro a b hab
    rcases hab with ⟨hlt | ⟨heq, hle⟩, hne⟩
    · exact Or.inl hlt
    · exact Or.inr ⟨heq.symm, lt_of_le_of_ne hle hne⟩
  · rw [htop]
    exact List.nodup_reverse.mpr (hnodup.sublist hsub)
  · intro i hi
    rw [htop, List.mem_reverse] at hi
    exact List.mem_range.mp ((hperm.mem_iff).mp (hsub.subset hi))
  · intro j hj hjn i hi
    rw [htop, List.mem_reverse] at hi hjn
    have hjs : j ∈ s := (hperm.mem_iff).mpr (List.mem_range.mpr hj)
    have hsplit : List.take jd s ++ List.drop jd s = s := List.take_append_drop jd s
    have hjtake : j ∈ List.take jd s := by
      rcases List.mem_append.mp (show j ∈ List.take jd s ++ List.drop jd s by
        rw [hsplit]; exact hjs) with h' | h'
      · exact h'
      · exact absurd h' hjn
    have hpairs : List.Pairwise (argOrder p) (List.take jd s ++ List.drop jd s) := by
      rw [hsplit]; exact hsort
    have hrel := (List.pairwise_append.mp hpairs).2.2 j hjtake i hi
    rcases hrel with h' | ⟨h', _⟩
    · exact le_of_lt h'
    · exact le_of_eq h'

/-- C3 witness: the characterization applied to the concrete confident
vector `[0.9, 0.05, 0.05]` with `top_k = 3`, whose indices `[0, 2, 1]`
exhibit the highest-index-first tie-break at `0.05`. -/
theorem topk_indices_characterization_witness :
    calculate_confidence_metrics [mkRat 9 10, mkRat 1 20, mkRat 1 20] 3
      = some rConfident.confidence_metrics
    ∧ rConfident.confidence_metrics.top_k_indices.Pairwise (fun i j =>
        [mkRat 9 10, mkRat 1 20, mkRat 1 20].getD j 0
            < [mkRat 9 10, mkRat 1 20, mkRat 1 20].getD i 0
        ∨ ([mkRat 9 10, mkRat 1 20, mkRat 1 20].getD i 0
              = [mkRat 9 10, mkRat 1 20, mkRat 1 20].getD j 0 ∧ j < i)) :=
  ⟨by decide,
   (topk_indices_characterization [mkRat 9 10, mkRat 1 20, mkRat 1 20] 3
     rConfident.confidence_metrics (by decide)).1⟩

end PlantX
